import Mathlib

/-!
Verification of the Solana OpenAPI LayerZero cross-chain messaging program
(`src/solana-program/src`): message identity derivation, the message-record
lifecycle, and the four instruction handlers (send, receive, query, respond),
embedded shallowly.  Machine integers are modelled as `Nat`, with reduction
`% 2 ^ 64` where u64 overflow matters; `Pubkey` is modelled as `Nat`; byte
strings are `List Nat`.  Each instruction handler is a pure function from its
parsed inputs (account flags, instruction data, config, the message account's
contents, clock value, and the outcome of the external CPI) to the returned
`ProgramResult` paired with the observable post-state of the message account;
a failing call leaves the account unchanged, matching the host's transaction
rollback semantics.
-/

/-- Little-endian bytes of a `u32` value (`u32::to_le_bytes`). -/
def u32_le_bytes (n : Nat) : List Nat :=
  [n % 256, n / 256 % 256, n / 65536 % 256, n / 16777216 % 256]

/-- Little-endian bytes of a `u64` value (`u64::to_le_bytes`). -/
def u64_le_bytes (n : Nat) : List Nat :=
  [n % 256, n / 256 % 256, n / 65536 % 256, n / 16777216 % 256,
   n / 4294967296 % 256, n / 1099511627776 % 256,
   n / 281474976710656 % 256, n / 72057594037927936 % 256]

/-- Big-endian bytes of a 32-bit word, for the SHA-256 digest output. -/
def u32_be_bytes (n : Nat) : List Nat :=
  [n / 16777216 % 256, n / 65536 % 256, n / 256 % 256, n % 256]

/-- Big-endian bytes of a 64-bit value, for the SHA-256 length field. -/
def u64_be_bytes (n : Nat) : List Nat :=
  [n / 72057594037927936 % 256, n / 281474976710656 % 256,
   n / 1099511627776 % 256, n / 4294967296 % 256,
   n / 16777216 % 256, n / 65536 % 256, n / 256 % 256, n % 256]

/-- Right rotation of a 32-bit word by `n` places. -/
def rotr32 (n x : Nat) : Nat :=
  (x / 2 ^ n + x % 2 ^ n * 2 ^ (32 - n)) % 4294967296

/-- Logical right shift of a 32-bit word by `n` places. -/
def shr32 (n x : Nat) : Nat := x / 2 ^ n

/-- Bitwise complement of a 32-bit word. -/
def not32 (x : Nat) : Nat := Nat.xor x 4294967295

/-- SHA-256 `Ch(x, y, z)` (FIPS 180-4). -/
def sha2Ch (x y z : Nat) : Nat := Nat.xor (Nat.land x y) (Nat.land (not32 x) z)

/-- SHA-256 `Maj(x, y, z)` (FIPS 180-4). -/
def sha2Maj (x y z : Nat) : Nat :=
  Nat.xor (Nat.land x y) (Nat.xor (Nat.land x z) (Nat.land y z))

/-- SHA-256 big sigma 0. -/
def bsig0 (x : Nat) : Nat := Nat.xor (rotr32 2 x) (Nat.xor (rotr32 13 x) (rotr32 22 x))

/-- SHA-256 big sigma 1. -/
def bsig1 (x : Nat) : Nat := Nat.xor (rotr32 6 x) (Nat.xor (rotr32 11 x) (rotr32 25 x))

/-- SHA-256 small sigma 0. -/
def ssig0 (x : Nat) : Nat := Nat.xor (rotr32 7 x) (Nat.xor (rotr32 18 x) (shr32 3 x))

/-- SHA-256 small sigma 1. -/
def ssig1 (x : Nat) : Nat := Nat.xor (rotr32 17 x) (Nat.xor (rotr32 19 x) (shr32 10 x))

/-- The 64 SHA-256 round constants (FIPS 180-4 §4.2.2, in decimal). -/
def sha2K : List Nat :=
  [1116352408, 1899447441, 3049323471, 3921009573, 961987163, 1508970993,
   2453635748, 2870763221, 3624381080, 310598401, 607225278, 1426881987,
   1925078388, 2162078206, 2614888103, 3248222580, 3835390401, 4022224774,
   264347078, 604807628, 770255983, 1249150122, 1555081692, 1996064986,
   2554220882, 2821834349, 2952996808, 3210313671, 3336571891, 3584528711,
   113926993, 338241895, 666307205, 773529912, 1294757372, 1396182291,
   1695183700, 1986661051, 2177026350, 2456956037, 2730485921, 2820302411,
   3259730800, 3345764771, 3516065817, 3600352804, 4094571909, 275423344,
   430227734, 506948616, 659060556, 883997877, 958139571, 1322822218,
   1537002063, 1747873779, 1955562222, 2024104815, 2227730452, 2361852424,
   2428436474, 2756734187, 3204031479, 3329325298]

/-- 16 big-endian 32-bit words from a 64-byte block. -/
def blockWords : List Nat → List Nat
  | a :: b :: c :: d :: rest => (((a * 256 + b) * 256 + c) * 256 + d) :: blockWords rest
  | _ => []

/-- Append the next word of the SHA-256 message schedule. -/
def pushScheduleWord (w : Array Nat) : Array Nat :=
  let i := w.size
  w.push ((ssig1 (w.getD (i - 2) 0) + w.getD (i - 7) 0 +
           ssig0 (w.getD (i - 15) 0) + w.getD (i - 16) 0) % 4294967296)

/-- Extend the message schedule by `n` further words. -/
def extendSchedule : Nat → Array Nat → Array Nat
  | 0, w => w
  | n + 1, w => extendSchedule n (pushScheduleWord w)

/-- The full 64-word SHA-256 message schedule of one 64-byte block. -/
def schedule (block : List Nat) : Array Nat :=
  extendSchedule 48 (blockWords block).toArray

/-- SHA-256 working state: eight 32-bit words. -/
structure Sha2State where
  a : Nat
  b : Nat
  c : Nat
  d : Nat
  e : Nat
  f : Nat
  g : Nat
  h : Nat
deriving DecidableEq, Repr

/-- One SHA-256 compression round, given the round constant and schedule word. -/
def sha2Round (s : Sha2State) (kw : Nat × Nat) : Sha2State :=
  let t1 := (s.h + bsig1 s.e + sha2Ch s.e s.f s.g + kw.1 + kw.2) % 4294967296
  let t2 := (bsig0 s.a + sha2Maj s.a s.b s.c) % 4294967296
  ⟨(t1 + t2) % 4294967296, s.a, s.b, s.c, (s.d + t1) % 4294967296, s.e, s.f, s.g⟩

/-- Compress one 64-byte block into the hash state. -/
def compressBlock (s : Sha2State) (block : List Nat) : Sha2State :=
  let w := schedule block
  let t := (List.zip sha2K w.toList).foldl sha2Round s
  ⟨(s.a + t.a) % 4294967296, (s.b + t.b) % 4294967296,
   (s.c + t.c) % 4294967296, (s.d + t.d) % 4294967296,
   (s.e + t.e) % 4294967296, (s.f + t.f) % 4294967296,
   (s.g + t.g) % 4294967296, (s.h + t.h) % 4294967296⟩

/-- SHA-256 padding: a `0x80` byte, zeros to 56 mod 64, and the bit length. -/
def padMessage (msg : List Nat) : List Nat :=
  msg ++ 128 :: List.replicate ((119 - msg.length % 64) % 64) 0 ++
    u64_be_bytes (msg.length * 8)

/-- Split a byte list into 64-byte chunks, structurally on a fuel bound. -/
def chunksAux : Nat → List Nat → List (List Nat)
  | 0, _ => []
  | _, [] => []
  | n + 1, l => l.take 64 :: chunksAux n (l.drop 64)

/-- Split a byte list into 64-byte chunks; the list's length bounds the
number of chunks, so it serves as fuel. -/
def chunks64 (l : List Nat) : List (List Nat) := chunksAux l.length l

/-- The initial SHA-256 hash state (FIPS 180-4 §5.3.3, in decimal). -/
def sha2Init : Sha2State :=
  ⟨1779033703, 3144134277, 1013904242, 2773480762,
   1359893119, 2600822924, 528734635, 1541459225⟩

/-- SHA-256 of a byte string, as its 32-byte big-endian digest. -/
def sha256 (msg : List Nat) : List Nat :=
  let s := (chunks64 (padMessage msg)).foldl compressBlock sha2Init
  u32_be_bytes s.a ++ u32_be_bytes s.b ++ u32_be_bytes s.c ++ u32_be_bytes s.d ++
  u32_be_bytes s.e ++ u32_be_bytes s.f ++ u32_be_bytes s.g ++ u32_be_bytes s.h

/-- Incremental SHA-256 hasher (`sha2::Sha256`): the bytes absorbed so far. -/
structure Sha256Hasher where
  data : List Nat
deriving DecidableEq, Repr

/-- `Sha256::new()`. -/
def Sha256Hasher.new : Sha256Hasher := ⟨[]⟩

/-- `Hasher::update`: absorb further bytes. -/
def Sha256Hasher.update (s : Sha256Hasher) (bytes : List Nat) : Sha256Hasher :=
  ⟨s.data ++ bytes⟩

/-- `Hasher::finalize`: the digest of every byte absorbed. -/
def Sha256Hasher.finalize (s : Sha256Hasher) : List Nat := sha256 s.data

/-- `MessageOptions` (layerzero.rs): LayerZero V2 message options. -/
structure MessageOptions where
  gas_limit : Nat
  refund_address : Nat
  executor_options : List Nat
  receiver_options : List Nat
deriving DecidableEq, Repr

/-- `CrossChainMessage` (layerzero.rs). -/
structure CrossChainMessage where
  source_chain_id : Nat
  destination_chain_id : Nat
  message_type : Nat
  payload : List Nat
  nonce : Nat
  options : Option MessageOptions
deriving DecidableEq, Repr

/-- `CrossChainMessage::new`. -/
def CrossChainMessage.new (source_chain_id destination_chain_id message_type : Nat)
    (payload : List Nat) (nonce : Nat) (options : Option MessageOptions) :
    CrossChainMessage :=
  ⟨source_chain_id, destination_chain_id, message_type, payload, nonce, options⟩

/-- `CrossChainMessage::generate_id`: SHA-256 over the message fields,
absorbed in the source's order. -/
def CrossChainMessage.generate_id (m : CrossChainMessage) : List Nat :=
  let hasher := Sha256Hasher.new
  let hasher := hasher.update (u32_le_bytes m.source_chain_id)
  let hasher := hasher.update (u32_le_bytes m.destination_chain_id)
  let hasher := hasher.update [m.message_type]
  let hasher := hasher.update (u64_le_bytes m.nonce)
  let hasher := hasher.update m.payload
  hasher.finalize

/-- `SolanaOpenApiError` (error.rs). -/
inductive SolanaOpenApiError where
  | InvalidInstructionData
  | InvalidAccountData
  | AccountNotInitialized
  | InsufficientFunds
  | InvalidEndpoint
  | Unauthorized
  | MessageAlreadyProcessed
  | InvalidMessageStatus
  | InvalidDestinationChain
  | MessageNotFound
  | PayloadTooLarge
  | InvalidMessageOptions
deriving DecidableEq, Repr

/-- Host `ProgramError`, restricted to the variants these handlers produce:
custom program errors, and the host codes used in the handlers. -/
inductive ProgramError where
  | Custom (e : SolanaOpenApiError)
  | InvalidInstructionData
  | AccountDataTooSmall
deriving DecidableEq, Repr

/-- `MessageStatus` (state.rs). -/
inductive MessageStatus where
  | Pending
  | InFlight
  | Delivered
  | Failed
  | Completed
deriving DecidableEq, Repr

/-- `MessageStatus as u8`: the source's explicit discriminants. -/
def MessageStatus.toU8 : MessageStatus → Nat
  | .Pending => 1
  | .InFlight => 2
  | .Delivered => 3
  | .Failed => 4
  | .Completed => 5

/-- `ProgramConfig` (state.rs). -/
structure ProgramConfig where
  is_initialized : Bool
  admin : Nat
  layerzero_endpoint : Nat
  fee_account : Nat
  solana_chain_id : Nat
deriving DecidableEq, Repr

/-- `MessageRecord` (state.rs); `status` is stored as the `u8` encoding. -/
structure MessageRecord where
  is_initialized : Bool
  message_id : List Nat
  source_chain_id : Nat
  destination_chain_id : Nat
  message_type : Nat
  sender : Nat
  status : Nat
  timestamp : Nat
  response_data : Option (List Nat)
deriving DecidableEq, Repr

/-- `MessageRecord::new`: a fresh record in status `Pending`. -/
def MessageRecord.new (message_id : List Nat)
    (source_chain_id destination_chain_id message_type sender timestamp : Nat) :
    MessageRecord :=
  ⟨true, message_id, source_chain_id, destination_chain_id, message_type,
   sender, MessageStatus.Pending.toU8, timestamp, none⟩

/-- `MessageRecord::update_status`. -/
def MessageRecord.update_status (r : MessageRecord) (s : MessageStatus) :
    MessageRecord :=
  { r with status := s.toU8 }

/-- `MessageRecord::set_response`: stores the payload and moves the status to
`Completed` (both assignments in the one method body). -/
def MessageRecord.set_response (r : MessageRecord) (response_data : List Nat) :
    MessageRecord :=
  { r with response_data := some response_data,
           status := MessageStatus.Completed.toU8 }

/-- Borsh size of a serialized `MessageRecord`: bool + 32-byte id + two u32 +
u8 + 32-byte pubkey + u8 + u64 + option tag, plus `4 + len` when the response
is present. -/
def recordSize (r : MessageRecord) : Nat :=
  84 + match r.response_data with
       | none => 0
       | some p => 4 + p.length

/-- `QueryParams` (state.rs). -/
structure QueryParams where
  query_type : Nat
  target_address : List Nat
  extra_params : Option (List Nat)
deriving DecidableEq, Repr

/-- Borsh encoding of a byte vector: u32 little-endian length, then bytes. -/
def borshVec (v : List Nat) : List Nat := u32_le_bytes v.length ++ v

/-- Borsh encoding of an optional byte vector: a tag byte, then the vector. -/
def borshOptionVec : Option (List Nat) → List Nat
  | none => [0]
  | some v => 1 :: borshVec v

/-- Borsh serialization of `QueryParams`, the payload built by the query
handler. -/
def QueryParams.borsh (q : QueryParams) : List Nat :=
  q.query_type :: (borshVec q.target_address ++ borshOptionVec q.extra_params)

/-- `verify_from_endpoint` (layerzero.rs): the documented stub, which always
succeeds. -/
def verify_from_endpoint (_message : CrossChainMessage) : Except ProgramError Unit :=
  .ok ()

/-- `get_fee_quote` (layerzero.rs): per-chain base fee, plus 100 lamports per
payload byte, plus `gas_limit / 1000`; u64 products and sums reduced
`% 2 ^ 64`.  The source always returns `Ok`. -/
def get_fee_quote (destination_chain_id payload_size : Nat)
    (options : MessageOptions) : Except ProgramError Nat :=
  let base_fee : Nat :=
    match destination_chain_id with
    | 1 => 1000000
    | 2 => 500000
    | 3 => 600000
    | 4 => 400000
    | _ => 800000
  let byte_fee := payload_size * 100 % 18446744073709551616
  let gas_fee := options.gas_limit / 1000
  let total_fee := (base_fee + byte_fee + gas_fee) % 18446744073709551616
  .ok total_fee

/-- Result of `send_to_endpoint`: the returned `ProgramResult`, and whether
the cross-program `invoke` of the endpoint was reached. -/
structure DispatchOutcome where
  result : Except ProgramError Unit
  invoked : Bool
deriving Repr

/-- `send_to_endpoint` (layerzero.rs): requires `message.options`, then
serializes the send instruction and invokes the endpoint program; `cpi` is
the outcome the host reports for that external call. -/
def send_to_endpoint (message : CrossChainMessage)
    (_destination_address : List Nat) (cpi : Except ProgramError Unit) :
    DispatchOutcome :=
  match message.options with
  | none => ⟨.error (.Custom .InvalidMessageOptions), false⟩
  | some _ =>
    match cpi with
    | .error e => ⟨.error e, true⟩
    | .ok _ => ⟨.ok (), true⟩

/-- Contents of the message-record account as an operation observes them:
empty, holding a parsable record, or holding unparsable bytes. -/
inductive RecordAccount where
  | empty
  | stored (r : MessageRecord)
  | corrupt
deriving DecidableEq, Repr

/-- `SendMessageData` (send_message.rs). -/
structure SendMessageData where
  destination_chain_id : Nat
  destination_address : List Nat
  message_type : Nat
  payload : List Nat
  gas_limit : Nat
deriving DecidableEq, Repr

/-- The `MessageOptions` the send handler builds from its instruction data. -/
def sendOptions (d : SendMessageData) (sender_key : Nat) : MessageOptions :=
  ⟨d.gas_limit, sender_key, [], []⟩

/-- The `CrossChainMessage` the send handler builds: source is the configured
local chain, nonce is the clock timestamp, options are present. -/
def sendBuiltMessage (config : ProgramConfig) (d : SendMessageData)
    (sender_key timestamp : Nat) : CrossChainMessage :=
  CrossChainMessage.new config.solana_chain_id d.destination_chain_id
    d.message_type d.payload timestamp (some (sendOptions d sender_key))

/-- Parsed inputs of one `send_message::process` call. -/
structure SendInput where
  sender_is_signer : Bool
  sender_key : Nat
  endpoint_key : Nat
  instruction : Option SendMessageData
  config : Option ProgramConfig
  message_account : RecordAccount
  message_capacity : Nat
  timestamp : Nat
  cpi : Except ProgramError Unit
deriving Repr

/-- `send_message::process`, as the returned result and the observable
post-state of the message account. -/
def processSend (inp : SendInput) : Except ProgramError Unit × RecordAccount :=
  if inp.sender_is_signer = false then
    (.error (.Custom .Unauthorized), inp.message_account)
  else match inp.instruction with
  | none => (.error (.Custom .InvalidInstructionData), inp.message_account)
  | some send_data =>
    if send_data.payload.length > 10000 then
      (.error (.Custom .PayloadTooLarge), inp.message_account)
    else match inp.config with
    | none => (.error (.Custom .InvalidAccountData), inp.message_account)
    | some config =>
      if config.is_initialized = false then
        (.error (.Custom .AccountNotInitialized), inp.message_account)
      else if config.layerzero_endpoint ≠ inp.endpoint_key then
        (.error (.Custom .InvalidEndpoint), inp.message_account)
      else
        let nonce := inp.timestamp
        let options := sendOptions send_data inp.sender_key
        let message := sendBuiltMessage config send_data inp.sender_key nonce
        let message_id := message.generate_id
        let message_record := MessageRecord.new message_id config.solana_chain_id
          send_data.destination_chain_id send_data.message_type inp.sender_key
          inp.timestamp
        if recordSize message_record > inp.message_capacity then
          (.error .AccountDataTooSmall, inp.message_account)
        else match get_fee_quote send_data.destination_chain_id
                     send_data.payload.length options with
        | .error e => (.error e, inp.message_account)
        | .ok _fee =>
          match send_to_endpoint message send_data.destination_address inp.cpi with
          | ⟨.error e, _⟩ => (.error e, inp.message_account)
          | ⟨.ok _, _⟩ => (.ok (), .stored message_record)

/-- `ReceiveMessageData` (receive_message.rs). -/
structure ReceiveMessageData where
  source_chain_id : Nat
  source_address : List Nat
  payload : List Nat
  message_type : Nat
deriving DecidableEq, Repr

/-- The `CrossChainMessage` the receive handler derives from inbound data:
destination is the configured local chain, nonce 0, no options. -/
def receiveBuiltMessage (config : ProgramConfig) (rd : ReceiveMessageData) :
    CrossChainMessage :=
  CrossChainMessage.new rd.source_chain_id config.solana_chain_id
    rd.message_type rd.payload 0 none

/-- Parsed inputs of one `receive_message::process` call. -/
structure ReceiveInput where
  relayer_is_signer : Bool
  relayer_key : Nat
  endpoint_key : Nat
  instruction : Option ReceiveMessageData
  config : Option ProgramConfig
  message_account : RecordAccount
  message_capacity : Nat
  timestamp : Nat
deriving Repr

/-- `receive_message::process`, as the returned result and the observable
post-state of the message account. -/
def processReceive (inp : ReceiveInput) :
    Except ProgramError Unit × RecordAccount :=
  if inp.relayer_is_signer = false then
    (.error (.Custom .Unauthorized), inp.message_account)
  else match inp.instruction with
  | none => (.error (.Custom .InvalidInstructionData), inp.message_account)
  | some receive_data =>
    match inp.config with
    | none => (.error (.Custom .InvalidAccountData), inp.message_account)
    | some config =>
      if config.is_initialized = false then
        (.error (.Custom .AccountNotInitialized), inp.message_account)
      else if config.layerzero_endpoint ≠ inp.endpoint_key then
        (.error (.Custom .InvalidEndpoint), inp.message_account)
      else
        let message := receiveBuiltMessage config receive_data
        match verify_from_endpoint message with
        | .error e => (.error e, inp.message_account)
        | .ok _ =>
          let message_id := message.generate_id
          match inp.message_account with
          | .empty =>
            let message_record := MessageRecord.new message_id
              receive_data.source_chain_id config.solana_chain_id
              receive_data.message_type inp.relayer_key inp.timestamp
            let updated_record := message_record.update_status .Delivered
            if recordSize updated_record > inp.message_capacity then
              (.error .AccountDataTooSmall, inp.message_account)
            else (.ok (), .stored updated_record)
          | .corrupt => (.error (.Custom .InvalidAccountData), inp.message_account)
          | .stored message_record =>
            if message_record.message_id ≠ message_id then
              (.error (.Custom .InvalidAccountData), inp.message_account)
            else if message_record.status = MessageStatus.Completed.toU8 then
              (.error (.Custom .MessageAlreadyProcessed), inp.message_account)
            else
              let updated := message_record.update_status .Delivered
              if recordSize updated > inp.message_capacity then
                (.error .AccountDataTooSmall, inp.message_account)
              else (.ok (), .stored updated)

/-- `QueryDataParams` (query_data.rs). -/
structure QueryDataParams where
  destination_chain_id : Nat
  destination_address : List Nat
  query_params : QueryParams
  gas_limit : Nat
deriving DecidableEq, Repr

/-- The `MessageOptions` the query handler builds from its instruction data. -/
def queryOptions (q : QueryDataParams) (sender_key : Nat) : MessageOptions :=
  ⟨q.gas_limit, sender_key, [], []⟩

/-- The `CrossChainMessage` the query handler builds: its payload is the
Borsh serialization of the query parameters, nonce is the clock timestamp,
options are present. -/
def queryBuiltMessage (config : ProgramConfig) (q : QueryDataParams)
    (sender_key timestamp : Nat) : CrossChainMessage :=
  CrossChainMessage.new config.solana_chain_id q.destination_chain_id
    q.query_params.query_type q.query_params.borsh timestamp
    (some (queryOptions q sender_key))

/-- Parsed inputs of one `query_data::process` call. -/
structure QueryInput where
  sender_is_signer : Bool
  sender_key : Nat
  endpoint_key : Nat
  instruction : Option QueryDataParams
  config : Option ProgramConfig
  message_account : RecordAccount
  message_capacity : Nat
  timestamp : Nat
  cpi : Except ProgramError Unit
deriving Repr

/-- `query_data::process`, as the returned result and the observable
post-state of the message account. -/
def processQuery (inp : QueryInput) : Except ProgramError Unit × RecordAccount :=
  if inp.sender_is_signer = false then
    (.error (.Custom .Unauthorized), inp.message_account)
  else match inp.instruction with
  | none => (.error (.Custom .InvalidInstructionData), inp.message_account)
  | some query_data =>
    match inp.config with
    | none => (.error (.Custom .InvalidAccountData), inp.message_account)
    | some config =>
      if config.is_initialized = false then
        (.error (.Custom .AccountNotInitialized), inp.message_account)
      else if config.layerzero_endpoint ≠ inp.endpoint_key then
        (.error (.Custom .InvalidEndpoint), inp.message_account)
      else if query_data.destination_chain_id = 0 then
        (.error (.Custom .InvalidDestinationChain), inp.message_account)
      else
        let options := queryOptions query_data inp.sender_key
        let payload := query_data.query_params.borsh
        let message := queryBuiltMessage config query_data inp.sender_key
          inp.timestamp
        let message_id := message.generate_id
        let message_record := MessageRecord.new message_id config.solana_chain_id
          query_data.destination_chain_id query_data.query_params.query_type
          inp.sender_key inp.timestamp
        if recordSize message_record > inp.message_capacity then
          (.error .AccountDataTooSmall, inp.message_account)
        else match get_fee_quote query_data.destination_chain_id
                     payload.length options with
        | .error e => (.error e, inp.message_account)
        | .ok _fee =>
          match send_to_endpoint message query_data.destination_address inp.cpi with
          | ⟨.error e, _⟩ => (.error e, inp.message_account)
          | ⟨.ok _, _⟩ => (.ok (), .stored message_record)

/-- `ResponseData` (process_response.rs). -/
structure ResponseData where
  source_chain_id : Nat
  source_address : List Nat
  response_payload : List Nat
  original_message_id : List Nat
deriving DecidableEq, Repr

/-- The `CrossChainMessage` the response handler builds for verification:
message type 0, nonce 0, destination the configured local chain, no options. -/
def responseBuiltMessage (config : ProgramConfig) (rd : ResponseData) :
    CrossChainMessage :=
  CrossChainMessage.new rd.source_chain_id config.solana_chain_id 0
    rd.response_payload 0 none

/-- Parsed inputs of one `process_response::process` call. -/
structure ProcessResponseInput where
  relayer_is_signer : Bool
  relayer_key : Nat
  endpoint_key : Nat
  instruction : Option ResponseData
  config : Option ProgramConfig
  message_account : RecordAccount
  message_capacity : Nat
  timestamp : Nat
deriving Repr

/-- `process_response::process`, as the returned result and the observable
post-state of the message account. -/
def processResponse (inp : ProcessResponseInput) :
    Except ProgramError Unit × RecordAccount :=
  if inp.relayer_is_signer = false then
    (.error (.Custom .Unauthorized), inp.message_account)
  else match inp.instruction with
  | none => (.error (.Custom .InvalidInstructionData), inp.message_account)
  | some response_data =>
    match inp.config with
    | none => (.error (.Custom .InvalidAccountData), inp.message_account)
    | some config =>
      if config.is_initialized = false then
        (.error (.Custom .AccountNotInitialized), inp.message_account)
      else if config.layerzero_endpoint ≠ inp.endpoint_key then
        (.error (.Custom .InvalidEndpoint), inp.message_account)
      else
        let message := responseBuiltMessage config response_data
        match verify_from_endpoint message with
        | .error e => (.error e, inp.message_account)
        | .ok _ =>
          match inp.message_account with
          | .empty => (.error (.Custom .InvalidAccountData), inp.message_account)
          | .corrupt => (.error (.Custom .InvalidAccountData), inp.message_account)
          | .stored message_record =>
            if message_record.message_id ≠ response_data.original_message_id then
              (.error (.Custom .MessageNotFound), inp.message_account)
            else if message_record.status = MessageStatus.Completed.toU8 then
              (.error (.Custom .MessageAlreadyProcessed), inp.message_account)
            else
              let updated := (message_record.set_response
                response_data.response_payload).update_status .Completed
              if recordSize updated > inp.message_capacity then
                (.error .AccountDataTooSmall, inp.message_account)
              else (.ok (), .stored updated)

/-- Base-fee table transcribed from the specification's words: 1000000 for
chain id 1, 500000 for 2, 600000 for 3, 400000 for 4, 800000 otherwise; to be
compared with the table inside `get_fee_quote`. -/
def specFeeBase (destination_chain_id : Nat) : Nat :=
  match destination_chain_id with
  | 1 => 1000000
  | 2 => 500000
  | 3 => 600000
  | 4 => 400000
  | _ => 800000

/-- A parsed config whose `is_initialized` flag is false. -/
def uninitConfig : ProgramConfig := ⟨false, 9, 22, 33, 100⟩

/-- Query parameters whose Borsh payload is 10006 bytes long. -/
def bigQueryParams : QueryParams := ⟨1, List.replicate 10000 7, none⟩

/-- A query call carrying `bigQueryParams`, with every guard satisfied. -/
def bigQueryInput : QueryInput :=
  ⟨true, 11, 22, some ⟨2, [1], bigQueryParams, 5000⟩, some ⟨true, 9, 22, 33, 100⟩,
   .empty, 1000, 1234, .ok ()⟩

/-- A send call whose requested destination chain id is 0, with every other
guard satisfied. -/
def zeroDestSendInput : SendInput :=
  ⟨true, 11, 22, some ⟨0, [4], 1, [1, 2, 3], 5000⟩, some ⟨true, 9, 22, 33, 100⟩,
   .empty, 1000, 1234, .ok ()⟩

/-- A stored record with chain pair (5, 7) and message type 3. -/
def crossedRecord : MessageRecord :=
  ⟨true, List.replicate 32 9, 5, 7, 3, 44, 3, 1000, none⟩

/-- A response whose reversed triple does not match `crossedRecord` but whose
`original_message_id` does. -/
def crossedResponse : ResponseData := ⟨9, [1], [1, 2], List.replicate 32 9⟩

/-- The config under which `crossedInput` runs; local chain id 100. -/
def crossedConfig : ProgramConfig := ⟨true, 9, 22, 33, 100⟩

/-- A process-response call pairing `crossedRecord` with `crossedResponse`. -/
def crossedInput : ProcessResponseInput :=
  ⟨true, 11, 22, some crossedResponse, some crossedConfig, .stored crossedRecord,
   1000, 1234⟩

/-- A concrete initialized config for the receive-replay witness. -/
def rcvConfig : ProgramConfig := ⟨true, 9, 22, 33, 100⟩

/-- Concrete inbound message data for the receive-replay witness. -/
def rcvData : ReceiveMessageData := ⟨5, [2], [1, 2], 3⟩

/-- A stored record whose id is the derived identity of `rcvData` and whose
status is `Completed`. -/
def completedReceiveRecord : MessageRecord :=
  ⟨true, (receiveBuiltMessage rcvConfig rcvData).generate_id, 5, 100, 3, 44, 5,
   1000, none⟩

/-- A u64 wrapping sum of the fee components equals the pure sum when the pure
sum fits in 64 bits. -/
theorem fee_total_eq (base payload_size gas : Nat)
    (h : base + payload_size * 100 + gas / 1000 < 18446744073709551616) :
    (base + payload_size * 100 % 18446744073709551616 + gas / 1000) %
      18446744073709551616 = base + payload_size * 100 + gas / 1000 := by
  rw [Nat.mod_eq_of_lt (show payload_size * 100 < 18446744073709551616 by omega),
    Nat.mod_eq_of_lt h]

/-- A status update does not change a record's serialized size. -/
theorem recordSize_update_status (r : MessageRecord) (s : MessageStatus) :
    recordSize (r.update_status s) = recordSize r := rfl

/-- C1: `generate_id` is a pure total function returning exactly the SHA-256
digest of the 4-byte little-endian source id, 4-byte little-endian
destination id, the message-type byte, the 8-byte little-endian nonce, and
the raw payload, in that order; messages with identical fields get identical
identities, and repeated calls agree. -/
theorem generate_id_spec (m : CrossChainMessage) :
    m.generate_id =
      sha256 (u32_le_bytes m.source_chain_id ++ u32_le_bytes m.destination_chain_id ++
        [m.message_type] ++ u64_le_bytes m.nonce ++ m.payload)
  ∧ (∀ m2 : CrossChainMessage, m.source_chain_id = m2.source_chain_id →
      m.destination_chain_id = m2.destination_chain_id →
      m.message_type = m2.message_type → m.nonce = m2.nonce →
      m.payload = m2.payload → m.generate_id = m2.generate_id)
  ∧ m.generate_id = m.generate_id := by
  refine ⟨?_, ?_, rfl⟩
  · simp [CrossChainMessage.generate_id, Sha256Hasher.new, Sha256Hasher.update,
      Sha256Hasher.finalize, List.append_assoc]
  · intro m2 h1 h2 h3 h4 h5
    simp [CrossChainMessage.generate_id, Sha256Hasher.new, Sha256Hasher.update,
      Sha256Hasher.finalize, h1, h2, h3, h4, h5]

/-- C1 witness: the field-congruence part of `generate_id_spec` at a concrete
message. -/
theorem generate_id_spec_witness :
    (⟨7, 2, 1, [97, 98, 99], 6, none⟩ : CrossChainMessage).generate_id =
    (⟨7, 2, 1, [97, 98, 99], 6, none⟩ : CrossChainMessage).generate_id :=
  (generate_id_spec ⟨7, 2, 1, [97, 98, 99], 6, none⟩).2.1
    ⟨7, 2, 1, [97, 98, 99], 6, none⟩ rfl rfl rfl rfl rfl

/-- C2 counterexample: a process-response call whose record triple (5, 7, 3)
differs from the reversed triple (100, 9, 0) of the inbound message, yet the
call succeeds and completes the record instead of failing with an
`InvalidAccountData`-class error. -/
theorem response_triple_unchecked_cex :
    (crossedRecord.source_chain_id, crossedRecord.destination_chain_id,
        crossedRecord.message_type)
      ≠ (crossedConfig.solana_chain_id, crossedResponse.source_chain_id, 0)
  ∧ processResponse crossedInput =
      (.ok (),
        .stored { crossedRecord with response_data := some [1, 2], status := 5 }) := by
  constructor
  · decide
  · rfl

/-- C2 amended: the handler compares no chain-pair/type triple; its only
cross-wiring guard is the message-id equality, and when the stored record's
`message_id` differs from the response's `original_message_id` the call fails
with `MessageNotFound` and leaves the record unchanged. -/
theorem response_id_mismatch (inp : ProcessResponseInput) (resp : ResponseData)
    (config : ProgramConfig) (rec : MessageRecord) :
    inp.relayer_is_signer = true → inp.instruction = some resp →
    inp.config = some config → config.is_initialized = true →
    config.layerzero_endpoint = inp.endpoint_key →
    inp.message_account = .stored rec →
    rec.message_id ≠ resp.original_message_id →
    processResponse inp = (.error (.Custom .MessageNotFound), inp.message_account) := by
  intro h1 h2 h3 h4 h5 h6 h7
  simp only [processResponse, h1, h2, h3, h4, h5, h6, verify_from_endpoint]
  simp [h7]

/-- C2 amended witness: `response_id_mismatch` at a concrete call whose ids
differ in one byte. -/
theorem response_id_mismatch_witness :
    processResponse ⟨true, 11, 22, some ⟨9, [1], [1, 2], List.replicate 32 9⟩,
        some ⟨true, 9, 22, 33, 100⟩,
        .stored ⟨true, List.replicate 32 8, 5, 7, 3, 44, 3, 1000, none⟩, 1000, 1234⟩ =
      (.error (.Custom .MessageNotFound),
        .stored ⟨true, List.replicate 32 8, 5, 7, 3, 44, 3, 1000, none⟩) :=
  response_id_mismatch _ ⟨9, [1], [1, 2], List.replicate 32 9⟩ ⟨true, 9, 22, 33, 100⟩
    ⟨true, List.replicate 32 8, 5, 7, 3, 44, 3, 1000, none⟩
    rfl rfl rfl rfl rfl rfl (by decide)

/-- C3: a process-response call against a record already in status
`Completed` (with matching id) fails with `MessageAlreadyProcessed` and
leaves the account unchanged; every failing call leaves the account
unchanged; and a successful call stores the record with the response payload
attached and status `Completed` set together. -/
theorem response_completed_idempotent (inp : ProcessResponseInput) :
    (∀ (resp : ResponseData) (config : ProgramConfig) (rec : MessageRecord),
      inp.relayer_is_signer = true → inp.instruction = some resp →
      inp.config = some config → config.is_initialized = true →
      config.layerzero_endpoint = inp.endpoint_key →
      inp.message_account = .stored rec →
      rec.message_id = resp.original_message_id →
      rec.status = MessageStatus.Completed.toU8 →
      processResponse inp =
        (.error (.Custom .MessageAlreadyProcessed), inp.message_account))
  ∧ (∀ (e : ProgramError) (r : RecordAccount),
      processResponse inp = (.error e, r) → r = inp.message_account)
  ∧ (∀ r : RecordAccount, processResponse inp = (.ok (), r) →
      ∃ (resp : ResponseData) (rec : MessageRecord),
        inp.instruction = some resp ∧ r = .stored rec ∧
        rec.status = MessageStatus.Completed.toU8 ∧
        rec.response_data = some resp.response_payload) := by
  refine ⟨?_, ?_, ?_⟩
  · intro resp config rec h1 h2 h3 h4 h5 h6 h7 h8
    simp only [processResponse, h1, h2, h3, h4, h5, h6, verify_from_endpoint]
    simp [h7, h8]
  · intro e r h
    simp only [processResponse, verify_from_endpoint] at h
    repeat' split at h
    all_goals simp_all
  · intro r h
    simp only [processResponse, verify_from_endpoint] at h
    repeat' split at h
    all_goals simp_all [MessageRecord.set_response, MessageRecord.update_status,
      MessageStatus.toU8]
    exact ⟨_, h.symm, rfl, rfl⟩

/-- C3 witness: `response_completed_idempotent` at a concrete call against a
`Completed` record. -/
theorem response_completed_idempotent_witness :
    processResponse ⟨true, 11, 22, some ⟨9, [1], [1, 2], List.replicate 32 9⟩,
        some ⟨true, 9, 22, 33, 100⟩,
        .stored ⟨true, List.replicate 32 9, 5, 7, 3, 44, 5, 1000, some [3]⟩,
        1000, 1234⟩ =
      (.error (.Custom .MessageAlreadyProcessed),
        .stored ⟨true, List.replicate 32 9, 5, 7, 3, 44, 5, 1000, some [3]⟩) :=
  (response_completed_idempotent _).1 ⟨9, [1], [1, 2], List.replicate 32 9⟩
    ⟨true, 9, 22, 33, 100⟩ ⟨true, List.replicate 32 9, 5, 7, 3, 44, 5, 1000, some [3]⟩
    rfl rfl rfl rfl rfl rfl rfl rfl

/-- C4: a receive into an empty account creates the record in status
`Delivered` keyed by the derived identity; a replay against a stored record
with matching id and status other than `Completed` succeeds and sets status
`Delivered`; a receive against a `Completed` record fails with
`MessageAlreadyProcessed` and leaves the account unchanged. -/
theorem receive_replay_semantics (inp : ReceiveInput) :
    (∀ (rd : ReceiveMessageData) (config : ProgramConfig),
      inp.relayer_is_signer = true → inp.instruction = some rd →
      inp.config = some config → config.is_initialized = true →
      config.layerzero_endpoint = inp.endpoint_key →
      inp.message_account = .empty →
      84 ≤ inp.message_capacity →
      ∃ rec : MessageRecord,
        processReceive inp = (.ok (), .stored rec) ∧
        rec.status = MessageStatus.Delivered.toU8 ∧
        rec.message_id = (receiveBuiltMessage config rd).generate_id)
  ∧ (∀ (rd : ReceiveMessageData) (config : ProgramConfig) (rec : MessageRecord),
      inp.relayer_is_signer = true → inp.instruction = some rd →
      inp.config = some config → config.is_initialized = true →
      config.layerzero_endpoint = inp.endpoint_key →
      inp.message_account = .stored rec →
      rec.message_id = (receiveBuiltMessage config rd).generate_id →
      rec.status ≠ MessageStatus.Completed.toU8 →
      recordSize rec ≤ inp.message_capacity →
      processReceive inp = (.ok (), .stored (rec.update_status .Delivered)))
  ∧ (∀ (rd : ReceiveMessageData) (config : ProgramConfig) (rec : MessageRecord),
      inp.relayer_is_signer = true → inp.instruction = some rd →
      inp.config = some config → config.is_initialized = true →
      config.layerzero_endpoint = inp.endpoint_key →
      inp.message_account = .stored rec →
      rec.message_id = (receiveBuiltMessage config rd).generate_id →
      rec.status = MessageStatus.Completed.toU8 →
      processReceive inp =
        (.error (.Custom .MessageAlreadyProcessed), inp.message_account)) := by
  refine ⟨?_, ?_, ?_⟩
  · intro rd config h1 h2 h3 h4 h5 h6 hcap
    refine ⟨(MessageRecord.new ((receiveBuiltMessage config rd).generate_id)
      rd.source_chain_id config.solana_chain_id rd.message_type inp.relayer_key
      inp.timestamp).update_status .Delivered, ?_, rfl, rfl⟩
    simp only [processReceive, h1, h2, h3, h4, h5, h6, verify_from_endpoint]
    simp only [recordSize_update_status]
    simp [recordSize, MessageRecord.new, Nat.not_lt.mpr hcap]
  · intro rd config rec h1 h2 h3 h4 h5 h6 h7 h8 hcap
    simp only [processReceive, h1, h2, h3, h4, h5, h6, verify_from_endpoint]
    simp only [recordSize_update_status]
    simp [h7, h8, Nat.not_lt.mpr hcap]
  · intro rd config rec h1 h2 h3 h4 h5 h6 h7 h8
    simp only [processReceive, h1, h2, h3, h4, h5, h6, verify_from_endpoint]
    simp [h7, h8]

/-- C4 witness: `receive_replay_semantics` at a concrete call against a
`Completed` record keyed by the same derived identity. -/
theorem receive_replay_semantics_witness :
    processReceive ⟨true, 11, 22, some rcvData, some rcvConfig,
        .stored completedReceiveRecord, 1000, 1234⟩ =
      (.error (.Custom .MessageAlreadyProcessed), .stored completedReceiveRecord) :=
  (receive_replay_semantics _).2.2 rcvData rcvConfig completedReceiveRecord
    rfl rfl rfl rfl rfl rfl rfl rfl

/-- C5: each of the four handlers, on a parsed config whose `is_initialized`
flag is false, fails with `AccountNotInitialized` — whatever the endpoint key
supplied — and leaves the message account unchanged. -/
theorem fail_closed_config :
    (∀ (inp : SendInput) (d : SendMessageData) (config : ProgramConfig),
      inp.sender_is_signer = true → inp.instruction = some d →
      d.payload.length ≤ 10000 → inp.config = some config →
      config.is_initialized = false →
      processSend inp = (.error (.Custom .AccountNotInitialized), inp.message_account))
  ∧ (∀ (inp : ReceiveInput) (rd : ReceiveMessageData) (config : ProgramConfig),
      inp.relayer_is_signer = true → inp.instruction = some rd →
      inp.config = some config → config.is_initialized = false →
      processReceive inp = (.error (.Custom .AccountNotInitialized), inp.message_account))
  ∧ (∀ (inp : QueryInput) (q : QueryDataParams) (config : ProgramConfig),
      inp.sender_is_signer = true → inp.instruction = some q →
      inp.config = some config → config.is_initialized = false →
      processQuery inp = (.error (.Custom .AccountNotInitialized), inp.message_account))
  ∧ (∀ (inp : ProcessResponseInput) (resp : ResponseData) (config : ProgramConfig),
      inp.relayer_is_signer = true → inp.instruction = some resp →
      inp.config = some config → config.is_initialized = false →
      processResponse inp =
        (.error (.Custom .AccountNotInitialized), inp.message_account)) := by
  refine ⟨?_, ?_, ?_, ?_⟩
  · intro inp d config h1 h2 h3 h4 h5
    simp only [processSend, h1, h2, h4, h5]
    simp [Nat.not_lt.mpr h3]
  · intro inp rd config h1 h2 h3 h4
    simp only [processReceive, h1, h2, h3, h4]
    simp
  · intro inp q config h1 h2 h3 h4
    simp only [processQuery, h1, h2, h3, h4]
    simp
  · intro inp resp config h1 h2 h3 h4
    simp only [processResponse, h1, h2, h3, h4]
    simp

/-- C5 witness: `fail_closed_config` at concrete calls of all four handlers
under `uninitConfig`. -/
theorem fail_closed_config_witness :
    processSend ⟨true, 11, 22, some ⟨2, [4], 1, [1], 5000⟩, some uninitConfig,
        .empty, 1000, 1234, .ok ()⟩ =
      (.error (.Custom .AccountNotInitialized), .empty)
  ∧ processReceive ⟨true, 11, 22, some ⟨5, [2], [1], 3⟩, some uninitConfig,
        .empty, 1000, 1234⟩ =
      (.error (.Custom .AccountNotInitialized), .empty)
  ∧ processQuery ⟨true, 11, 22, some ⟨2, [4], ⟨1, [5], none⟩, 5000⟩,
        some uninitConfig, .empty, 1000, 1234, .ok ()⟩ =
      (.error (.Custom .AccountNotInitialized), .empty)
  ∧ processResponse ⟨true, 11, 22, some ⟨5, [2], [1], List.replicate 32 9⟩,
        some uninitConfig, .empty, 1000, 1234⟩ =
      (.error (.Custom .AccountNotInitialized), .empty) :=
  ⟨fail_closed_config.1 _ _ uninitConfig rfl rfl (by decide) rfl rfl,
   fail_closed_config.2.1 _ _ uninitConfig rfl rfl rfl rfl,
   fail_closed_config.2.2.1 _ _ uninitConfig rfl rfl rfl rfl,
   fail_closed_config.2.2.2 _ _ uninitConfig rfl rfl rfl rfl⟩

/-- C6 counterexample: a query whose Borsh-serialized payload is 10006 bytes
long succeeds instead of failing with `PayloadTooLarge` — the query handler
has no payload-size check. -/
theorem query_payload_unbounded_cex :
    bigQueryParams.borsh.length > 10000 ∧ (processQuery bigQueryInput).1 = .ok () := by
  constructor
  · simp only [bigQueryParams, QueryParams.borsh, borshVec, borshOptionVec,
      u32_le_bytes, List.length_cons, List.length_append, List.length_replicate]
    norm_num
  · rfl

/-- C6 amended: a send whose payload exceeds 10000 bytes fails with
`PayloadTooLarge` and leaves the message account unchanged, whatever the rest
of the input; the query handler performs no payload-size check. -/
theorem send_payload_bound (inp : SendInput) (d : SendMessageData) :
    inp.sender_is_signer = true → inp.instruction = some d →
    d.payload.length > 10000 →
    processSend inp = (.error (.Custom .PayloadTooLarge), inp.message_account) := by
  intro h1 h2 h3
  simp only [processSend, h1, h2]
  simp [h3]

/-- C6 amended witness: `send_payload_bound` at a 10001-byte payload. -/
theorem send_payload_bound_witness :
    processSend ⟨true, 11, 22, some ⟨2, [4], 1, List.replicate 10001 7, 5000⟩,
        some ⟨true, 9, 22, 33, 100⟩, .empty, 20000, 1234, .ok ()⟩ =
      (.error (.Custom .PayloadTooLarge), .empty) :=
  send_payload_bound _ ⟨2, [4], 1, List.replicate 10001 7, 5000⟩ rfl rfl
    (by simp only [List.length_replicate]; norm_num)

/-- C7 counterexample: a send whose requested destination chain id is 0
succeeds — the send handler has no destination-chain check. -/
theorem send_zero_destination_cex :
    (∃ d, zeroDestSendInput.instruction = some d ∧ d.destination_chain_id = 0)
  ∧ (processSend zeroDestSendInput).1 = .ok () :=
  ⟨⟨_, rfl, rfl⟩, rfl⟩

/-- C7 amended: a query whose destination chain id is 0 fails with
`InvalidDestinationChain` and leaves the message account unchanged; the send
handler performs no such check. -/
theorem query_zero_destination (inp : QueryInput) (q : QueryDataParams)
    (config : ProgramConfig) :
    inp.sender_is_signer = true → inp.instruction = some q →
    inp.config = some config → config.is_initialized = true →
    config.layerzero_endpoint = inp.endpoint_key →
    q.destination_chain_id = 0 →
    processQuery inp = (.error (.Custom .InvalidDestinationChain), inp.message_account) := by
  intro h1 h2 h3 h4 h5 h6
  simp only [processQuery, h1, h2, h3, h4, h5, h6]
  simp

/-- C7 amended witness: `query_zero_destination` at a concrete call. -/
theorem query_zero_destination_witness :
    processQuery ⟨true, 11, 22, some ⟨0, [4], ⟨1, [5], none⟩, 5000⟩,
        some ⟨true, 9, 22, 33, 100⟩, .empty, 1000, 1234, .ok ()⟩ =
      (.error (.Custom .InvalidDestinationChain), .empty) :=
  query_zero_destination _ ⟨0, [4], ⟨1, [5], none⟩, 5000⟩ ⟨true, 9, 22, 33, 100⟩
    rfl rfl rfl rfl rfl rfl

/-- C8: `get_fee_quote` always returns `Ok`; it depends on its options only
through `gas_limit`; and whenever the exact sum fits in a u64 it returns the
spec's base-fee table value plus 100 per payload byte plus
`gas_limit / 1000`. -/
theorem get_fee_quote_spec (destination_chain_id payload_size : Nat)
    (options : MessageOptions) :
    (∃ v, get_fee_quote destination_chain_id payload_size options = .ok v)
  ∧ (∀ o2 : MessageOptions, o2.gas_limit = options.gas_limit →
      get_fee_quote destination_chain_id payload_size o2 =
        get_fee_quote destination_chain_id payload_size options)
  ∧ (specFeeBase destination_chain_id + payload_size * 100 +
        options.gas_limit / 1000 < 18446744073709551616 →
      get_fee_quote destination_chain_id payload_size options =
        .ok (specFeeBase destination_chain_id + payload_size * 100 +
          options.gas_limit / 1000)) := by
  refine ⟨⟨_, rfl⟩, ?_, ?_⟩
  · intro o2 h
    simp only [get_fee_quote, h]
  · intro hlt
    rcases destination_chain_id with _ | _ | _ | _ | _ | n <;>
      exact congrArg Except.ok (fee_total_eq _ _ _ hlt)

/-- C8 witness: `get_fee_quote_spec` at destination 2, payload 3 bytes, gas
limit 5000, giving 500000 + 300 + 5. -/
theorem get_fee_quote_spec_witness :
    (∃ v, get_fee_quote 2 3 ⟨5000, 1, [], []⟩ = .ok v)
  ∧ get_fee_quote 2 3 ⟨5000, 1, [], []⟩ = .ok 500305 := by
  refine ⟨(get_fee_quote_spec 2 3 ⟨5000, 1, [], []⟩).1, ?_⟩
  have h := (get_fee_quote_spec 2 3 ⟨5000, 1, [], []⟩).2.2 (by decide)
  simpa using h

/-- C9: `send_to_endpoint` on a message without options fails with
`InvalidMessageOptions` and never reaches the endpoint `invoke`; the messages
the send and query handlers build always carry options, and dispatching them
always reaches the `invoke`. -/
theorem dispatch_requires_options (m : CrossChainMessage) (addr : List Nat)
    (cpi : Except ProgramError Unit) :
    (m.options = none →
      send_to_endpoint m addr cpi =
        ⟨.error (.Custom .InvalidMessageOptions), false⟩)
  ∧ (∀ (config : ProgramConfig) (d : SendMessageData) (sender_key timestamp : Nat),
      (sendBuiltMessage config d sender_key timestamp).options.isSome = true)
  ∧ (∀ (config : ProgramConfig) (q : QueryDataParams) (sender_key timestamp : Nat),
      (queryBuiltMessage config q sender_key timestamp).options.isSome = true)
  ∧ (∀ (config : ProgramConfig) (d : SendMessageData) (sender_key timestamp : Nat)
        (addr2 : List Nat) (cpi2 : Except ProgramError Unit),
      (send_to_endpoint (sendBuiltMessage config d sender_key timestamp) addr2
        cpi2).invoked = true)
  ∧ (∀ (config : ProgramConfig) (q : QueryDataParams) (sender_key timestamp : Nat)
        (addr2 : List Nat) (cpi2 : Except ProgramError Unit),
      (send_to_endpoint (queryBuiltMessage config q sender_key timestamp) addr2
        cpi2).invoked = true) := by
  refine ⟨?_, ?_, ?_, ?_, ?_⟩
  · intro h
    simp [send_to_endpoint, h]
  · intro config d sender_key timestamp
    simp [sendBuiltMessage, CrossChainMessage.new]
  · intro config q sender_key timestamp
    simp [queryBuiltMessage, CrossChainMessage.new]
  · intro config d sender_key timestamp addr2 cpi2
    cases cpi2 <;> rfl
  · intro config q sender_key timestamp addr2 cpi2
    cases cpi2 <;> rfl

/-- C9 witness: `dispatch_requires_options` at a concrete optionless
message. -/
theorem dispatch_requires_options_witness :
    send_to_endpoint ⟨1, 2, 3, [4], 5, none⟩ [6] (.ok ()) =
      ⟨.error (.Custom .InvalidMessageOptions), false⟩ :=
  (dispatch_requires_options ⟨1, 2, 3, [4], 5, none⟩ [6] (.ok ())).1 rfl

/-- C10: the message the receive handler derives has nonce 0, destination the
configured local chain id, and no options; hence two receive calls agreeing
on source chain, message type, and payload under one config derive the same
identity, independent of arrival time. -/
theorem receive_identity_deterministic (config : ProgramConfig)
    (rd : ReceiveMessageData) :
    (receiveBuiltMessage config rd).nonce = 0
  ∧ (receiveBuiltMessage config rd).destination_chain_id = config.solana_chain_id
  ∧ (receiveBuiltMessage config rd).options = none
  ∧ (∀ rd2 : ReceiveMessageData, rd2.source_chain_id = rd.source_chain_id →
      rd2.message_type = rd.message_type → rd2.payload = rd.payload →
      (receiveBuiltMessage config rd2).generate_id =
        (receiveBuiltMessage config rd).generate_id) := by
  refine ⟨rfl, rfl, rfl, ?_⟩
  intro rd2 h1 h2 h3
  simp [receiveBuiltMessage, CrossChainMessage.new, CrossChainMessage.generate_id,
    Sha256Hasher.new, Sha256Hasher.update, Sha256Hasher.finalize, h1, h2, h3]

/-- C10 witness: `receive_identity_deterministic` at two concrete inbound
messages differing only in source address. -/
theorem receive_identity_deterministic_witness :
    (receiveBuiltMessage ⟨true, 9, 22, 33, 100⟩ ⟨5, [2], [1, 2], 3⟩).generate_id =
    (receiveBuiltMessage ⟨true, 9, 22, 33, 100⟩ ⟨5, [7], [1, 2], 3⟩).generate_id :=
  (receive_identity_deterministic ⟨true, 9, 22, 33, 100⟩ ⟨5, [7], [1, 2], 3⟩).2.2.2
    ⟨5, [2], [1, 2], 3⟩ rfl rfl rfl
